import Mathlib

/-!
Shallow embedding of the Virtual Tumor Board segmentation service
(`src/services/segmentation/main.py` and
`src/services/segmentation/predictor.py`) and proofs about it.

Modelling conventions:
- Python floats are modelled as rationals (`ℚ`); machine floats only carry
  prompt coordinates and small arithmetic here, none of the verified
  properties depend on rounding.
- A mask (`np.ndarray` of `bool`, shape `(H, W)`) is a `List (List Bool)`
  of `H` rows, each of length `W`; `numpy` row-major flattening is
  `List.flatten`.
- Fallible Python code (raised exceptions) is modelled with `Except`.
  An exception converted by a handler into an HTTP error response is
  `ServiceError.http status detail`; an exception that escapes the
  endpoint handler entirely is `ServiceError.uncaught msg`.
- The global `np.random` generator state is passed explicitly as a `Nat`
  argument; `np.random.seed s` replaces that state by `s`, so the draws
  that follow depend only on `s`.
-/

namespace VTB

/-- Point prompt for segmentation (class `PointPrompt` in `main.py`):
coordinates and a label, 1 = foreground, 0 = background. -/
structure PointPrompt where
  x : ℚ
  y : ℚ
  label : Int
deriving DecidableEq

/-- Bounding box prompt (class `BoxPrompt` in `main.py`). -/
structure BoxPrompt where
  x1 : ℚ
  y1 : ℚ
  x2 : ℚ
  y2 : ℚ
deriving DecidableEq

/-- The base64 `slice_data` string of a request, abstracted to the two
facts the service control flow depends on: whether `base64.b64decode`
succeeds, and how many bytes it yields.  The decoded float values are
dead downstream (the predictor reads only the array shape), so they are
not carried. -/
structure SliceBuffer where
  b64_valid : Bool
  byteLen : Nat
deriving DecidableEq

/-- Request body of `POST /segment` (class `SegmentationRequest`).
`slice_shape` is modelled as a pair `(H, W)`; `points`/`boxes` being
`None` in Python is behaviourally identical to `[]` everywhere in the
source (only truthiness is tested), so both are modelled as `[]`. -/
structure SegmentationRequest where
  slice_data : SliceBuffer
  slice_shape : Nat × Nat
  points : List PointPrompt
  boxes : List BoxPrompt
  window_center : Option ℚ := none
  window_width : Option ℚ := none
deriving DecidableEq

/-- Response body of `POST /segment` (class `SegmentationResponse`).
Runs are `(value, length)` pairs. -/
structure SegmentationResponse where
  mask_rle : List (Nat × Nat)
  mask_shape : Nat × Nat
  confidence : ℚ
  contours : Option (List (List (ℚ × ℚ)))
deriving DecidableEq

/-- Response of the health endpoints (class `HealthResponse`). -/
structure HealthResponse where
  status : String
  model_loaded : Bool
  mode : String
deriving DecidableEq

/-- How a request ends abnormally: `http` is a `fastapi.HTTPException`
turned into an HTTP error response; `uncaught` is a Python exception
that escapes the endpoint function. -/
inductive ServiceError where
  | http (status : Nat) (detail : String)
  | uncaught (msg : String)
deriving DecidableEq

/-- The global `predictor` object of `main.py`: `none` models
`predictor is None`; otherwise only the `model_loaded` flag is ever read
(`MedSAM3Predictor.__init__` always sets it). -/
structure PredictorObj where
  model_loaded : Bool
deriving DecidableEq

/-! ## Mask codec (`mask_to_rle`, `main.py` lines 143-164) -/

/-- One pass of the run grouping performed by `mask_to_rle`:
`v` is the value of the run being accumulated, `n` its length so far.
This is the recursive reading of the vectorised numpy scan
(`np.diff` / change indices / `zip(starts, ends)`): it emits one
`(value, length)` pair per maximal constant span, `True` mapped to `1`
by `astype(np.uint8)`. -/
def rleRuns : Bool → Nat → List Bool → List (Nat × Nat)
  | v, n, [] => [(v.toNat, n)]
  | v, n, b :: rest =>
      if b = v then rleRuns v (n + 1) rest
      else (v.toNat, n) :: rleRuns b 1 rest

/-- `mask_to_rle` on the flattened mask: empty input gives `[]`
(the `len(flat) == 0` early return), else group maximal runs. -/
def rleEncodeFlat : List Bool → List (Nat × Nat)
  | [] => []
  | b :: rest => rleRuns b 1 rest

/-- `mask_to_rle(mask)`: flatten row-major, then run-length encode. -/
def mask_to_rle (mask : List (List Bool)) : List (Nat × Nat) :=
  rleEncodeFlat mask.flatten

/-- Modelled from the spec: the source has no RLE decoder (the Mask
Codec `decode` of spec section 4.1 is absent from `src/`), so this
follows the words of the spec and of claim C1: expand each
`[value, length]` pair in order into `length` copies of the boolean
`value == 1`. -/
def rleExpand (rle : List (Nat × Nat)) : List Bool :=
  (rle.map fun r => List.replicate r.2 (r.1 == 1)).flatten

/-- Reshape a flat boolean list into `H` rows of `W` entries,
row-major (the `reshape` step of the decode described by the spec). -/
def reshapeRows (W : Nat) : Nat → List Bool → List (List Bool)
  | 0, _ => []
  | Nat.succ h, l => l.take W :: reshapeRows W h (l.drop W)

/-- Modelled from the spec: `decode(rle, shape)` of spec section 4.1.
It validates `sum(length) == H*W` (mismatch is a `MalformedEncoding`
error, modelled as `none`), then expands the runs and reshapes
row-major to `(H, W)`. -/
def rle_decode (rle : List (Nat × Nat)) (H W : Nat) : Option (List (List Bool)) :=
  if (rle.map fun r => r.2).sum = H * W then
    some (reshapeRows W H (rleExpand rle))
  else none

/-! ## Demo mask synthesizer (`generate_demo_mask`, `main.py` 167-212,
and `MedSAM3Predictor._generate_demo_mask`, `predictor.py` 172-215) -/

/-- Truncation toward zero: the semantics of Python `int()` applied to
a number. -/
def int_trunc (q : ℚ) : Int := Int.tdiv q.num q.den

/-- Deterministic model of one cell of a `np.random.random((H, W))`
draw issued right after `np.random.seed seed`: the value depends only
on the seed and the cell index and lies in `[0, 1)`.  The concrete
Mersenne Twister values are external to this repository; no verified
property depends on them, only on their being a pure function of the
seed. -/
def npRandomMat (seed i j : Nat) : ℚ :=
  (((seed + 1103515245 * i + 12345 * j) % 1000 : Nat) : ℚ) / 1000

/-- Build an `H × W` boolean grid from a cell function (row index
first), the shape `np.zeros((H, W))` / `np.ogrid` computations take. -/
def mkGrid (H W : Nat) (f : Nat → Nat → Bool) : List (List Bool) :=
  (List.range H).map fun i => (List.range W).map fun j => f i j

/-- Center selection of `generate_demo_mask` (`main.py` 180-194):
if the points list is non-empty, use the first point with `label == 1`,
and the slice center when no such point exists (boxes are not consulted
in that case); only when the points list is empty and a box exists is
the box centroid used; otherwise the slice center `(W/2, H/2)`. -/
def demoCenter (shape : Nat × Nat) (points : List PointPrompt)
    (boxes : List BoxPrompt) : ℚ × ℚ :=
  match points with
  | _ :: _ =>
      match points.filter (fun p => p.label == 1) with
      | p :: _ => (p.x, p.y)
      | [] => ((shape.2 : ℚ) / 2, (shape.1 : ℚ) / 2)
  | [] =>
      match boxes with
      | b :: _ => ((b.x1 + b.x2) / 2, (b.y1 + b.y2) / 2)
      | [] => ((shape.2 : ℚ) / 2, (shape.1 : ℚ) / 2)

/-- The argument `main.py` line 207 passes to `np.random.seed`:
`int(cx * 100 + cy * 10)`, unguarded. -/
def demoSeedVal (shape : Nat × Nat) (points : List PointPrompt)
    (boxes : List BoxPrompt) : Int :=
  let c := demoCenter shape points boxes
  int_trunc (c.1 * 100 + c.2 * 10)

/-- One cell of the demo mask of `main.py`: base decision
`dist <= 1.0`, overwritten on the boundary band `0.7 < dist < 1.3` by
`dist + noise <= 1.1` with `noise = np.random.random(...) * 0.3`. -/
def demoMaskCell (cx cy : ℚ) (rx ry : Nat) (seed : Nat) (i j : Nat) : Bool :=
  let dist : ℚ := (((j : ℚ) - cx) / rx) ^ 2 + (((i : ℚ) - cy) / ry) ^ 2
  if 7 / 10 < dist ∧ dist < 13 / 10 then
    decide (dist + npRandomMat seed i j * (3 / 10) ≤ 11 / 10)
  else decide (dist ≤ 1)

/-- The message of the `ValueError` that `np.random.seed` raises on a
seed outside `[0, 2^32)`. -/
def seedErrMsg : String := "ValueError: Seed must be between 0 and 2**32 - 1"

/-- `generate_demo_mask` (`main.py` 167-212).  The first argument is
the incoming global `np.random` state; the function re-seeds with
`int(cx*100 + cy*10)` before drawing, so the state is discarded.
`np.random.seed` raises `ValueError` when that value is outside
`[0, 2^32)`; the radii are `min(W, H) // 6` and `// 7`. -/
def generate_demo_mask (_rng : Nat) (shape : Nat × Nat)
    (points : List PointPrompt) (boxes : List BoxPrompt) :
    Except String (List (List Bool)) :=
  let H := shape.1
  let W := shape.2
  let c := demoCenter shape points boxes
  let rx : Nat := min W H / 6
  let ry : Nat := min W H / 7
  let s : Int := demoSeedVal shape points boxes
  if 0 ≤ s ∧ s < 2 ^ 32 then
    Except.ok (mkGrid H W fun i j => demoMaskCell c.1 c.2 rx ry s.toNat i j)
  else Except.error seedErrMsg

/-- The prompt dict handed to `MedSAM3Predictor.segment_slice`:
`points` / `labels` / `boxes` keys.  A missing `labels` key is `none`
(the source then substitutes `[1] * len(points)`); for `points` and
`boxes`, key-absent and empty behave identically (only truthiness is
tested), so both are `[]`. -/
structure Prompt where
  points : List (ℚ × ℚ)
  labels : Option (List Int)
  boxes : List (ℚ × ℚ × ℚ × ℚ)
deriving DecidableEq

/-- The comprehension of `predictor.py` 183-187 extracting foreground
points: filter positions whose label is 1, keep the coordinates.  Over
the equal-length lists the indexed Python comprehension is a
zip-filter. -/
def predFgPoints (points : List (ℚ × ℚ)) (labels : List Int) : List (ℚ × ℚ) :=
  ((points.zip labels).filter fun pl => pl.2 == 1).map fun pl => pl.1

/-- Center selection of `MedSAM3Predictor._generate_demo_mask`
(`predictor.py` 180-196).  The Python comprehension filters
`prompt["points"]` by `labels[i] == 1` with positional indices; over
the equal-length lists the service always supplies this is a
zip-filter. -/
def predCenter (shape : Nat × Nat) (prompt : Prompt) : ℚ × ℚ :=
  match prompt.points with
  | _ :: _ =>
      let labels := prompt.labels.getD (List.replicate prompt.points.length 1)
      match predFgPoints prompt.points labels with
      | c :: _ => c
      | [] => ((shape.2 : ℚ) / 2, (shape.1 : ℚ) / 2)
  | [] =>
      match prompt.boxes with
      | (x1, y1, x2, y2) :: _ => ((x1 + x2) / 2, (y1 + y2) / 2)
      | [] => ((shape.2 : ℚ) / 2, (shape.1 : ℚ) / 2)

/-- The argument `predictor.py` line 209 passes to `np.random.seed`:
`int(cx * 100 + cy * 10) % (2 ** 31)` — reduced, unlike the `main.py`
variant.  Python `%` on a positive modulus is Euclidean, as is Lean
`Int.emod`. -/
def predSeedVal (shape : Nat × Nat) (prompt : Prompt) : Int :=
  let c := predCenter shape prompt
  int_trunc (c.1 * 100 + c.2 * 10) % (2 ^ 31 : Int)

/-- One cell of the predictor demo mask: band `0.75 < dist < 1.25`,
noise scaled by `0.25`, threshold `1.1`. -/
def predMaskCell (cx cy : ℚ) (rx ry : Nat) (seed : Nat) (i j : Nat) : Bool :=
  let dist : ℚ := (((j : ℚ) - cx) / rx) ^ 2 + (((i : ℚ) - cy) / ry) ^ 2
  if 3 / 4 < dist ∧ dist < 5 / 4 then
    decide (dist + npRandomMat seed i j * (1 / 4) ≤ 11 / 10)
  else decide (dist ≤ 1)

/-- `MedSAM3Predictor._generate_demo_mask` (`predictor.py` 172-215),
with the same guarded-seed modelling as `generate_demo_mask`; radii are
`min(H, W) // 6` and `// 7`. -/
def pred_generate_demo_mask (_rng : Nat) (shape : Nat × Nat)
    (prompt : Prompt) : Except String (List (List Bool)) :=
  let H := shape.1
  let W := shape.2
  let c := predCenter shape prompt
  let rx : Nat := min H W / 6
  let ry : Nat := min H W / 7
  let s : Int := predSeedVal shape prompt
  if 0 ≤ s ∧ s < 2 ^ 32 then
    Except.ok (mkGrid H W fun i j => predMaskCell c.1 c.2 rx ry s.toNat i j)
  else Except.error seedErrMsg

/-- `MedSAM3Predictor.segment_slice` (`predictor.py` 142-170):
`original_shape = slice_data.shape[:2]` is the only use of the slice
array, and both the `not model_loaded` branch and the fall-through
("for now, always use demo mask") return `_generate_demo_mask`; the
window arguments are never read.  `self` is therefore dropped. -/
def predictor_segment_slice (rng : Nat) (slice_shape : Nat × Nat)
    (prompt : Prompt) (_wc _ww : Option ℚ) :
    Except String (List (List Bool)) :=
  pred_generate_demo_mask rng slice_shape prompt

/-! ## Endpoint layer (`main.py` 133-141 and 241-305) -/

/-- The condition `predictor is not None and
getattr(predictor, "model_loaded", False)` of `main.py` line 270
(`MedSAM3Predictor.__init__` always sets the attribute). -/
def predLoaded : Option PredictorObj → Bool
  | none => false
  | some o => o.model_loaded

/-- Whether `decode_slice` succeeds on a buffer for a declared shape:
`base64.b64decode` succeeds, `np.frombuffer(..., dtype=np.float32)`
requires a byte count divisible by 4, and `reshape` requires exactly
`H * W` elements. -/
def bufferDecodes (b : SliceBuffer) (shape : Nat × Nat) : Bool :=
  b.b64_valid && b.byteLen % 4 == 0 && b.byteLen / 4 == shape.1 * shape.2

/-- `decode_slice` (`main.py` 133-140): any exception in the decode
pipeline is caught and re-raised as `HTTPException(400, ...)`.  The
decoded array is only ever consumed through its shape, so the shape
stands for the array. -/
def decode_slice (data : SliceBuffer) (shape : Nat × Nat) :
    Except ServiceError (Nat × Nat) :=
  if bufferDecodes data shape then Except.ok shape
  else Except.error (ServiceError.http 400 "Failed to decode slice")

/-- The string interpolation `f"... {e}"` applied to a caught error. -/
def errText : ServiceError → String
  | ServiceError.http _ d => d
  | ServiceError.uncaught m => m

/-- The prompt dict built in `main.py` 276-281: keys are set only when
the corresponding request list is truthy. -/
def buildPrompt (points : List PointPrompt) (boxes : List BoxPrompt) : Prompt :=
  { points := points.map fun p => (p.x, p.y)
    labels := if points = [] then none else some (points.map fun p => p.label)
    boxes := boxes.map fun b => (b.x1, b.y1, b.x2, b.y2) }

/-- The type of the `cv2`-based external contour tracer
(`cv2.findContours` plus the squeeze/wrap post-processing of
`main.py` 220-233); its values are external to the repository. -/
def ContourFn : Type := List (List Bool) → List (List (ℚ × ℚ))

/-- `find_contours` (`main.py` 215-235): `import cv2` either succeeds,
giving a tracer (`some extract`), or raises `ImportError`, in which
case the function returns the empty list. -/
def find_contours (cv2 : Option ContourFn) (mask : List (List Bool)) :
    List (List (ℚ × ℚ)) :=
  match cv2 with
  | some extract => extract mask
  | none => []

/-- The `SegmentationResponse` constructed at `main.py` 300-305.  In
both paths the produced mask has exactly the requested shape, so
`list(mask.shape)` is `shape`; the `contours` field is always assigned
the `find_contours` result. -/
def mkResponse (shape : Nat × Nat) (mask : List (List Bool))
    (confidence : ℚ) (cv2 : Option ContourFn) : SegmentationResponse :=
  { mask_rle := mask_to_rle mask
    mask_shape := shape
    confidence := confidence
    contours := some (find_contours cv2 mask) }

/-- `health_check` (`main.py` 241-249).  `mode` tests the truthiness
of the predictor object itself, `model_loaded` tests its flag. -/
def health_check (predictor : Option PredictorObj) : HealthResponse :=
  { status := "healthy"
    model_loaded := predLoaded predictor
    mode := if predictor.isSome then "production" else "demo" }

/-- `segment_slice` (`main.py` 258-305).  The prompt check comes
first; the loaded path runs inside `try/except Exception`, which also
catches the `HTTPException(400)` of `decode_slice` and re-raises it as
a 500; the demo path has no handler, so an exception there escapes the
endpoint (`ServiceError.uncaught`).  Demo confidence is 0.75, loaded
confidence 0.85. -/
def segment_slice (predictor : Option PredictorObj) (cv2 : Option ContourFn)
    (rng : Nat) (req : SegmentationRequest) :
    Except ServiceError SegmentationResponse :=
  if req.points = [] ∧ req.boxes = [] then
    Except.error (ServiceError.http 400 "Must provide points or boxes")
  else
    let shape := req.slice_shape
    if predLoaded predictor then
      match decode_slice req.slice_data shape with
      | Except.error e =>
          Except.error (ServiceError.http 500 ("Segmentation failed: " ++ errText e))
      | Except.ok slice =>
          match predictor_segment_slice rng slice
              (buildPrompt req.points req.boxes)
              req.window_center req.window_width with
          | Except.error m =>
              Except.error (ServiceError.http 500 ("Segmentation failed: " ++ m))
          | Except.ok mask => Except.ok (mkResponse shape mask (17 / 20) cv2)
    else
      match generate_demo_mask rng shape req.points req.boxes with
      | Except.error m => Except.error (ServiceError.uncaught m)
      | Except.ok mask => Except.ok (mkResponse shape mask (3 / 4) cv2)

/-! ## Concrete inputs used in witnesses and counterexamples -/

/-- Demo-mode request whose `slice_data` is not decodable (invalid
base64, 7 bytes), with one foreground point. -/
def reqBadBuf : SegmentationRequest :=
  { slice_data := { b64_valid := false, byteLen := 7 }
    slice_shape := (0, 1)
    points := [{ x := 1, y := 2, label := 1 }]
    boxes := [] }

/-- Well-formed request on an empty slice, used for the contours
claims. -/
def reqContours : SegmentationRequest :=
  { slice_data := { b64_valid := true, byteLen := 0 }
    slice_shape := (0, 1)
    points := [{ x := 1, y := 2, label := 1 }]
    boxes := [] }

/-- The demo response to `reqContours`. -/
def respContours : SegmentationResponse :=
  { mask_rle := []
    mask_shape := (0, 1)
    confidence := 3 / 4
    contours := some [] }

/-- Well-formed request used for the validation claim. -/
def reqVal : SegmentationRequest :=
  { slice_data := { b64_valid := true, byteLen := 0 }
    slice_shape := (0, 1)
    points := [{ x := 1, y := 2, label := 1 }]
    boxes := [] }

/-- Request whose foreground point has a negative coordinate, driving
the demo seed `int(cx*100 + cy*10)` to `-5000`. -/
def reqNegSeed : SegmentationRequest :=
  { slice_data := { b64_valid := true, byteLen := 64 }
    slice_shape := (4, 4)
    points := [{ x := -50, y := 0, label := 1 }]
    boxes := [] }

/-- Request with foreground point `(-1, 0)`, demo seed `-100`. -/
def reqSeedDom : SegmentationRequest :=
  { slice_data := { b64_valid := true, byteLen := 64 }
    slice_shape := (4, 4)
    points := [{ x := -1, y := 0, label := 1 }]
    boxes := [] }

/-- Two requests identical except for the `slice_data` buffer. -/
def reqNiA : SegmentationRequest :=
  { slice_data := { b64_valid := false, byteLen := 3 }
    slice_shape := (8, 8)
    points := [{ x := 2, y := 2, label := 1 }]
    boxes := [] }

/-- Same as `reqNiA` with a different (decodable) buffer. -/
def reqNiB : SegmentationRequest :=
  { reqNiA with slice_data := { b64_valid := true, byteLen := 256 } }

/-! ## Theorems -/

theorem toNat_beq_one (v : Bool) : (v.toNat == 1) = v := by
  cases v <;> rfl

theorem rleExpand_rleRuns (l : List Bool) :
    ∀ v n, rleExpand (rleRuns v n l) = List.replicate n v ++ l := by
  induction l with
  | nil =>
      intro v n
      simp [rleRuns, rleExpand, toNat_beq_one]
  | cons b rest ih =>
      intro v n
      by_cases hbv : b = v
      · subst hbv
        have e : rleRuns b n (b :: rest) = rleRuns b (n + 1) rest := by
          simp [rleRuns]
        rw [e, ih b (n + 1), List.replicate_succ' n b]
        simp
      · simp only [rleRuns, if_neg hbv]
        have : rleExpand (((v.toNat, n) : Nat × Nat) :: rleRuns b 1 rest)
            = List.replicate n v ++ rleExpand (rleRuns b 1 rest) := by
          simp [rleExpand, toNat_beq_one]
        rw [this, ih b 1]
        simp

theorem rleExpand_encode (l : List Bool) : rleExpand (rleEncodeFlat l) = l := by
  cases l with
  | nil => rfl
  | cons b rest =>
      rw [rleEncodeFlat, rleExpand_rleRuns]
      simp

theorem reshapeRows_flatten (g : List (List Bool)) (W : Nat)
    (h : ∀ r ∈ g, r.length = W) :
    reshapeRows W g.length g.flatten = g := by
  induction g with
  | nil => rfl
  | cons r g ih =>
      have hr : r.length = W := h r (List.mem_cons_self r g)
      have hg : ∀ s ∈ g, s.length = W := fun s hs => h s (List.mem_cons_of_mem r hs)
      simp only [List.length_cons, List.flatten_cons, reshapeRows]
      rw [← hr, List.take_left, List.drop_left, hr, ih hg]

theorem sum_rleRuns (l : List Bool) :
    ∀ v n, ((rleRuns v n l).map fun r => r.2).sum = n + l.length := by
  induction l with
  | nil => intro v n; simp [rleRuns]
  | cons b rest ih =>
      intro v n
      by_cases hbv : b = v
      · simp only [rleRuns, if_pos hbv, List.length_cons]
        rw [ih v (n + 1)]
        omega
      · simp only [rleRuns, if_neg hbv, List.map_cons, List.sum_cons, List.length_cons]
        rw [ih b 1]
        omega

theorem sum_rleEncodeFlat (l : List Bool) :
    ((rleEncodeFlat l).map fun r => r.2).sum = l.length := by
  cases l with
  | nil => rfl
  | cons b rest =>
      rw [rleEncodeFlat, sum_rleRuns]
      simp only [List.length_cons]
      omega

theorem flatten_length (g : List (List Bool)) (W : Nat)
    (h : ∀ r ∈ g, r.length = W) : g.flatten.length = g.length * W := by
  induction g with
  | nil => simp
  | cons r g ih =>
      have hr : r.length = W := h r (List.mem_cons_self r g)
      have hg : ∀ s ∈ g, s.length = W := fun s hs => h s (List.mem_cons_of_mem r hs)
      simp only [List.flatten_cons, List.length_append, List.length_cons, ih hg, hr]
      ring

/-- Claim C1: RLE round-trip.  For every boolean mask of shape `(H, W)`
(shape `(0,0)`, `(1,1)`, all-zero and all-one masks included), decoding
the run-length encoding produced by `mask_to_rle` — expanding each
`[value, length]` pair in order and reshaping row-major to `(H, W)` —
reproduces the mask exactly. -/
theorem rle_roundtrip (g : List (List Bool)) (H W : Nat)
    (hH : g.length = H) (hW : ∀ r ∈ g, r.length = W) :
    rle_decode (mask_to_rle g) H W = some g := by
  have hsum : ((mask_to_rle g).map fun r => r.2).sum = H * W := by
    rw [mask_to_rle, sum_rleEncodeFlat, flatten_length g W hW, hH]
  rw [rle_decode, if_pos hsum, mask_to_rle, rleExpand_encode, ← hH,
    reshapeRows_flatten g W hW]

/-- Claim C1 witness: a concrete 2×2 mask round-trips. -/
theorem rle_roundtrip_witness :
    ([[true, false], [false, false]] : List (List Bool)).length = 2
    ∧ (∀ r ∈ ([[true, false], [false, false]] : List (List Bool)), r.length = 2)
    ∧ rle_decode (mask_to_rle [[true, false], [false, false]]) 2 2
        = some [[true, false], [false, false]] :=
  ⟨by decide, by decide,
    rle_roundtrip [[true, false], [false, false]] 2 2 (by decide) (by decide)⟩

theorem rleRuns_exists_head (l : List Bool) :
    ∀ v n, ∃ m t, rleRuns v n l = (v.toNat, m) :: t := by
  induction l with
  | nil => intro v n; exact ⟨n, [], rfl⟩
  | cons b rest ih =>
      intro v n
      by_cases hbv : b = v
      · subst hbv
        simpa only [rleRuns, if_pos rfl] using ih b (n + 1)
      · exact ⟨n, rleRuns b 1 rest, by simp [rleRuns, if_neg hbv]⟩

theorem chain'_rleRuns (l : List Bool) :
    ∀ v n, List.Chain' (fun a b : Nat × Nat => a.1 ≠ b.1) (rleRuns v n l) := by
  induction l with
  | nil => intro v n; simp [rleRuns]
  | cons b rest ih =>
      intro v n
      by_cases hbv : b = v
      · simpa only [rleRuns, if_pos hbv] using ih v (n + 1)
      · rw [rleRuns, if_neg hbv]
        rw [List.chain'_cons']
        refine ⟨?_, ih b 1⟩
        intro y hy
        obtain ⟨m, t, hmt⟩ := rleRuns_exists_head rest b 1
        rw [hmt] at hy
        simp only [List.head?_cons, Option.mem_def, Option.some.injEq] at hy
        subst hy
        simp only [ne_eq]
        intro hcontra
        apply hbv
        cases b <;> cases v <;> simp_all [Bool.toNat]

theorem mem_rleRuns_pos (l : List Bool) :
    ∀ v n, 1 ≤ n → ∀ p ∈ rleRuns v n l, 1 ≤ p.2 := by
  induction l with
  | nil =>
      intro v n hn p hp
      simp only [rleRuns, List.mem_singleton] at hp
      subst hp; exact hn
  | cons b rest ih =>
      intro v n hn p hp
      by_cases hbv : b = v
      · rw [rleRuns, if_pos hbv] at hp
        exact ih v (n + 1) (by omega) p hp
      · rw [rleRuns, if_neg hbv] at hp
        rcases List.mem_cons.mp hp with h1 | h2
        · subst h1; exact hn
        · exact ih b 1 (by omega) p h2

/-- Claim C7: RLE canonical form.  For every mask: no two adjacent runs
share a value, every run has length at least 1, the lengths sum to
`H * W`, and a zero-element mask yields the empty run sequence. -/
theorem rle_canonical (g : List (List Bool)) (H W : Nat)
    (hH : g.length = H) (hW : ∀ r ∈ g, r.length = W) :
    List.Chain' (fun a b : Nat × Nat => a.1 ≠ b.1) (mask_to_rle g)
    ∧ (∀ p ∈ mask_to_rle g, 1 ≤ p.2)
    ∧ ((mask_to_rle g).map fun r => r.2).sum = H * W
    ∧ (H * W = 0 → mask_to_rle g = []) := by
  have hlen : g.flatten.length = H * W := by
    rw [flatten_length g W hW, hH]
  refine ⟨?_, ?_, ?_, ?_⟩
  · rw [mask_to_rle]
    cases hfl : g.flatten with
    | nil => simp [rleEncodeFlat]
    | cons b rest => exact chain'_rleRuns rest b 1
  · rw [mask_to_rle]
    cases hfl : g.flatten with
    | nil => simp [rleEncodeFlat]
    | cons b rest => exact mem_rleRuns_pos rest b 1 (by omega)
  · rw [mask_to_rle, sum_rleEncodeFlat, hlen]
  · intro hzero
    rw [mask_to_rle]
    have : g.flatten.length = 0 := by rw [hlen, hzero]
    rw [List.length_eq_zero.mp this]
    rfl

/-- Claim C7 witness: canonical form at a concrete 2×2 mask. -/
theorem rle_canonical_witness :
    List.Chain' (fun a b : Nat × Nat => a.1 ≠ b.1)
        (mask_to_rle [[true, true], [false, true]])
    ∧ (∀ p ∈ mask_to_rle [[true, true], [false, true]], 1 ≤ p.2)
    ∧ ((mask_to_rle [[true, true], [false, true]]).map fun r => r.2).sum = 2 * 2
    ∧ (2 * 2 = 0 → mask_to_rle [[true, true], [false, true]] = []) :=
  rle_canonical [[true, true], [false, true]] 2 2 (by decide) (by decide)

/-- Claim C4 counterexample: a predictor object that exists but whose
model failed to load (`model_loaded = false`).  The claim requires mode
`"demo"` there; `health_check` tests only the truthiness of the object
and reports `"production"`. -/
theorem health_mode_counterexample :
    (health_check (some { model_loaded := false })).mode = "production"
    ∧ (health_check (some { model_loaded := false })).mode ≠ "demo"
    ∧ (health_check (some { model_loaded := false })).model_loaded = false := by
  refine ⟨rfl, ?_, rfl⟩
  decide

/-- Claim C4 as amended: `health_check` always succeeds with status
`"healthy"`; `model_loaded` reports the loaded flag; but `mode` is
`"production"` exactly when a predictor object exists, regardless of
whether its model loaded, and `"demo"` otherwise. -/
theorem health_mode (p : Option PredictorObj) :
    (health_check p).status = "healthy"
    ∧ (health_check p).model_loaded = predLoaded p
    ∧ ((health_check p).mode = "production" ↔ p.isSome = true)
    ∧ ((health_check p).mode = "demo" ↔ p.isSome = false) := by
  cases p <;> simp [health_check, predLoaded]

/-- Claim C8: demo determinism.  The output of both demo mask
synthesizers is independent of the incoming global `np.random` state
(each re-seeds from the prompt-derived center before drawing), so two
calls with identical shape, points and boxes yield bit-identical
results. -/
theorem demo_determinism (s1 s2 : Nat) (shape : Nat × Nat)
    (points : List PointPrompt) (boxes : List BoxPrompt) (prompt : Prompt) :
    generate_demo_mask s1 shape points boxes
      = generate_demo_mask s2 shape points boxes
    ∧ pred_generate_demo_mask s1 shape prompt
      = pred_generate_demo_mask s2 shape prompt :=
  ⟨rfl, rfl⟩

/-- Claim C9: demo-path noninterference.  When no model is loaded, the
whole `segment_slice` result is a function of `slice_shape`, `points`
and `boxes` only: two requests identical in those fields but with
arbitrary different `slice_data` buffers (including undecodable ones)
and window values produce identical responses. -/
theorem demo_noninterference (p : Option PredictorObj) (cv2 : Option ContourFn)
    (rng : Nat) (r1 r2 : SegmentationRequest)
    (hmode : predLoaded p = false)
    (hshape : r1.slice_shape = r2.slice_shape)
    (hpts : r1.points = r2.points) (hbx : r1.boxes = r2.boxes) :
    segment_slice p cv2 rng r1 = segment_slice p cv2 rng r2 := by
  simp [segment_slice, hmode, hshape, hpts, hbx]

/-- Claim C9 witness: `reqNiA` and `reqNiB` differ only in the buffer
(one undecodable, one decodable) and get identical responses in demo
mode. -/
theorem demo_noninterference_witness :
    predLoaded none = false
    ∧ reqNiA.slice_shape = reqNiB.slice_shape
    ∧ reqNiA.slice_data ≠ reqNiB.slice_data
    ∧ segment_slice none none 0 reqNiA = segment_slice none none 0 reqNiB :=
  ⟨rfl, rfl, by decide,
    demo_noninterference none none 0 reqNiA reqNiB rfl rfl rfl rfl⟩

/-- The reduced seed of the predictor-module variant always lies in the
domain `np.random.seed` accepts. -/
theorem predSeedVal_valid (shape : Nat × Nat) (prompt : Prompt) :
    0 ≤ predSeedVal shape prompt ∧ predSeedVal shape prompt < 2 ^ 32 := by
  unfold predSeedVal
  constructor
  · exact Int.emod_nonneg _ (by norm_num)
  · have h : int_trunc ((predCenter shape prompt).1 * 100
        + (predCenter shape prompt).2 * 10) % (2 ^ 31 : Int) < 2 ^ 31 :=
      Int.emod_lt_of_pos _ (by norm_num)
    calc int_trunc ((predCenter shape prompt).1 * 100
          + (predCenter shape prompt).2 * 10) % (2 ^ 31 : Int)
        < 2 ^ 31 := h
      _ < 2 ^ 32 := by norm_num

/-- The predictor-module demo mask generator never fails: its seed is
reduced modulo `2^31`. -/
theorem pred_demo_mask_ok (rng : Nat) (shape : Nat × Nat) (prompt : Prompt) :
    ∃ g, pred_generate_demo_mask rng shape prompt = Except.ok g := by
  have h := predSeedVal_valid shape prompt
  refine ⟨mkGrid shape.1 shape.2 (fun i j =>
      predMaskCell (predCenter shape prompt).1 (predCenter shape prompt).2
        (min shape.1 shape.2 / 6) (min shape.1 shape.2 / 7)
        (predSeedVal shape prompt).toNat i j), ?_⟩
  simp only [pred_generate_demo_mask]
  rw [if_pos h]

/-- Claim C10: seed-domain safety.  The endpoint-layer synthesizer
seeds with the unguarded `int(cx*100 + cy*10)`; whenever the derived
value is negative or at least `2^32`, the seeding step fails and the
demo-mode `segment_slice` raises (the exception escapes the handler)
instead of returning a mask, while the predictor-module variant, which
reduces its seed modulo `2^31`, never fails this way. -/
theorem demo_seed_domain (rng : Nat) (shape : Nat × Nat)
    (points : List PointPrompt) (boxes : List BoxPrompt)
    (hs : demoSeedVal shape points boxes < 0
      ∨ 2 ^ 32 ≤ demoSeedVal shape points boxes) :
    generate_demo_mask rng shape points boxes = Except.error seedErrMsg
    ∧ (∀ p cv2 req, predLoaded p = false →
        req.slice_shape = shape → req.points = points → req.boxes = boxes →
        ¬(points = [] ∧ boxes = []) →
        segment_slice p cv2 rng req
          = Except.error (ServiceError.uncaught seedErrMsg))
    ∧ (∀ rng2 shape2 prompt2, ∃ g,
        pred_generate_demo_mask rng2 shape2 prompt2 = Except.ok g) := by
  have hneg : ¬(0 ≤ demoSeedVal shape points boxes
      ∧ demoSeedVal shape points boxes < 2 ^ 32) := by
    rcases hs with h | h <;> omega
  have hmask : generate_demo_mask rng shape points boxes
      = Except.error seedErrMsg := by
    simp only [generate_demo_mask, if_neg hneg]
  refine ⟨hmask, ?_, fun rng2 shape2 prompt2 => pred_demo_mask_ok rng2 shape2 prompt2⟩
  intro p cv2 req hp hsh hpts hbx hprompt
  simp [segment_slice, hp, hsh, hpts, hbx, hmask]
  intro h1 h2
  exact hprompt ⟨h1, h2⟩

/-- Claim C10 witness: at foreground point `(-1, 0)` the demo seed is
`-100`, so `generate_demo_mask` fails, the demo-mode request raises,
and the predictor-module variant still succeeds. -/
theorem demo_seed_domain_witness :
    demoSeedVal (4, 4) [{ x := -1, y := 0, label := 1 }] [] < 0
    ∧ generate_demo_mask 0 (4, 4) [{ x := -1, y := 0, label := 1 }] []
        = Except.error seedErrMsg
    ∧ segment_slice none none 0 reqSeedDom
        = Except.error (ServiceError.uncaught seedErrMsg)
    ∧ (∃ g, pred_generate_demo_mask 0 (4, 4)
        (buildPrompt [{ x := -1, y := 0, label := 1 }] []) = Except.ok g) := by
  have hc : demoCenter (4, 4) [{ x := -1, y := 0, label := 1 }] [] = (-1, 0) := by
    decide
  have hs : demoSeedVal (4, 4) [{ x := -1, y := 0, label := 1 }] [] = -100 := by
    have h1 : demoSeedVal (4, 4) [{ x := -1, y := 0, label := 1 }] []
        = int_trunc ((-1 : ℚ) * 100 + 0 * 10) := by
      simp [demoSeedVal, hc]
    rw [h1, show ((-1 : ℚ) * 100 + 0 * 10) = -100 from by norm_num]
    decide
  have hlt : demoSeedVal (4, 4) [{ x := -1, y := 0, label := 1 }] [] < 0 := by
    rw [hs]; norm_num
  obtain ⟨h1, h2, h3⟩ :=
    demo_seed_domain 0 (4, 4) [{ x := -1, y := 0, label := 1 }] [] (Or.inl hlt)
  exact ⟨hlt, h1, h2 none none reqSeedDom rfl rfl rfl rfl (by simp),
    h3 0 (4, 4) (buildPrompt [{ x := -1, y := 0, label := 1 }] [])⟩

/-- The indexed Python comprehension over the equal-length lists built
by the endpoint equals the record-level filter. -/
theorem fg_build (pts : List PointPrompt) :
    predFgPoints (pts.map fun p => (p.x, p.y)) (pts.map fun p => p.label)
      = (pts.filter fun q => q.label == 1).map fun q => (q.x, q.y) := by
  rw [predFgPoints, List.zip_map', List.filter_map, List.map_map]
  rfl

/-- Claim C5 counterexample: a request with only a background point and
a box.  The claim requires the box centroid `(1, 1)` there; both the
endpoint synthesizer and the predictor variant give the slice center
`(5, 5)` instead, because a non-empty points list short-circuits box
handling. -/
theorem demo_center_counterexample :
    demoCenter (10, 10) [{ x := 3, y := 4, label := 0 }]
        [{ x1 := 0, y1 := 0, x2 := 2, y2 := 2 }] = (5, 5)
    ∧ predCenter (10, 10)
        (buildPrompt [{ x := 3, y := 4, label := 0 }]
          [{ x1 := 0, y1 := 0, x2 := 2, y2 := 2 }]) = (5, 5)
    ∧ ((5 : ℚ), (5 : ℚ)) ≠ (((0 : ℚ) + 2) / 2, ((0 : ℚ) + 2) / 2) := by
  refine ⟨?_, ?_, ?_⟩
  · norm_num [demoCenter]
  · norm_num [predCenter, buildPrompt, predFgPoints]
  · norm_num [Prod.ext_iff]

/-- Claim C5 as amended: the ellipse center is the first foreground
point when one exists; when the points list is non-empty but has no
foreground point the slice center is used and boxes are ignored; the
box centroid is used only when the points list is empty; otherwise the
slice center.  The predictor-module variant agrees with the endpoint
variant on every prompt the endpoint builds. -/
theorem demo_center_selection (shape : Nat × Nat)
    (points : List PointPrompt) (boxes : List BoxPrompt) :
    (∀ p ps, points.filter (fun q => q.label == 1) = p :: ps →
        demoCenter shape points boxes = (p.x, p.y))
    ∧ (points ≠ [] → points.filter (fun q => q.label == 1) = [] →
        demoCenter shape points boxes = ((shape.2 : ℚ) / 2, (shape.1 : ℚ) / 2))
    ∧ (points = [] → ∀ b bs, boxes = b :: bs →
        demoCenter shape points boxes = ((b.x1 + b.x2) / 2, (b.y1 + b.y2) / 2))
    ∧ (points = [] → boxes = [] →
        demoCenter shape points boxes = ((shape.2 : ℚ) / 2, (shape.1 : ℚ) / 2))
    ∧ predCenter shape (buildPrompt points boxes)
        = demoCenter shape points boxes := by
  refine ⟨?_, ?_, ?_, ?_, ?_⟩
  · intro p ps hf
    cases points with
    | nil => simp at hf
    | cons a as => simp [demoCenter, hf]
  · intro hne hf
    cases points with
    | nil => exact absurd rfl hne
    | cons a as => simp [demoCenter, hf]
  · intro hpts b bs hbx
    subst hpts; subst hbx
    simp [demoCenter]
  · intro hpts hbx
    subst hpts; subst hbx
    simp [demoCenter]
  · cases points with
    | nil =>
        cases boxes with
        | nil => rfl
        | cons b bs => rfl
    | cons a as =>
        have key := fg_build (a :: as)
        rw [List.map_cons, List.map_cons] at key
        rcases hflt : (a :: as).filter (fun q => q.label == 1) with _ | ⟨p, ps⟩ <;>
          simp [predCenter, buildPrompt, demoCenter, List.map_cons,
            Option.getD_some, key, hflt]

/-- Claim C5 witness: two points, background first, foreground second;
the center is the foreground point and the predictor variant agrees. -/
theorem demo_center_selection_witness :
    demoCenter (10, 10)
        [{ x := 2, y := 3, label := 0 }, { x := 4, y := 5, label := 1 }] []
      = ({ x := 4, y := 5, label := 1 : PointPrompt }.x,
         { x := 4, y := 5, label := 1 : PointPrompt }.y)
    ∧ predCenter (10, 10)
        (buildPrompt
          [{ x := 2, y := 3, label := 0 }, { x := 4, y := 5, label := 1 }] [])
      = demoCenter (10, 10)
        [{ x := 2, y := 3, label := 0 }, { x := 4, y := 5, label := 1 }] [] := by
  have h := demo_center_selection (10, 10)
      [{ x := 2, y := 3, label := 0 }, { x := 4, y := 5, label := 1 }] []
  exact ⟨h.1 { x := 4, y := 5, label := 1 } [] (by decide), h.2.2.2.2⟩

/-- Claim C6 counterexample: a request carrying one (foreground) point
for which `segment_slice` does not succeed — the demo seed is negative,
`np.random.seed` raises, and the exception escapes the endpoint. -/
theorem segment_success_counterexample :
    reqNegSeed.points ≠ []
    ∧ segment_slice none none 0 reqNegSeed
        = Except.error (ServiceError.uncaught seedErrMsg) := by
  constructor
  · decide
  · have hc : demoCenter (4, 4) [{ x := -50, y := 0, label := 1 }] [] = (-50, 0) := by
      decide
    have hs : demoSeedVal (4, 4) [{ x := -50, y := 0, label := 1 }] [] = -5000 := by
      have h1 : demoSeedVal (4, 4) [{ x := -50, y := 0, label := 1 }] []
          = int_trunc ((-50 : ℚ) * 100 + 0 * 10) := by
        simp [demoSeedVal, hc]
      rw [h1, show ((-50 : ℚ) * 100 + 0 * 10) = -5000 from by norm_num]
      decide
    simp [segment_slice, reqNegSeed, predLoaded, generate_demo_mask, hs]

/-- Claim C6 as amended: a request with neither points nor boxes fails
with the 400 `InvalidPrompt` error before any computation; a request
with at least one prompt succeeds provided the demo-path seed
`int(cx*100 + cy*10)` lies in `[0, 2^32)` (demo mode), respectively the
slice buffer decodes to the declared shape (loaded mode). -/
theorem segment_validation (p : Option PredictorObj) (cv2 : Option ContourFn)
    (rng : Nat) (req : SegmentationRequest) :
    (req.points = [] ∧ req.boxes = [] →
      segment_slice p cv2 rng req
        = Except.error (ServiceError.http 400 "Must provide points or boxes"))
    ∧ (¬(req.points = [] ∧ req.boxes = []) →
        (predLoaded p = false →
          0 ≤ demoSeedVal req.slice_shape req.points req.boxes →
          demoSeedVal req.slice_shape req.points req.boxes < 2 ^ 32 →
          (segment_slice p cv2 rng req).isOk = true)
        ∧ (predLoaded p = true →
          bufferDecodes req.slice_data req.slice_shape = true →
          (segment_slice p cv2 rng req).isOk = true)) := by
  constructor
  · intro h
    simp [segment_slice, h]
  · intro hne
    constructor
    · intro hp h0 h1
      have h1a : demoSeedVal req.slice_shape req.points req.boxes < 4294967296 := by
        simpa using h1
      simp [segment_slice, hne, hp, generate_demo_mask, h0, h1a, Except.isOk,
        Except.toBool]
    · intro hp hbuf
      have hok := predSeedVal_valid req.slice_shape (buildPrompt req.points req.boxes)
      have hok2 : predSeedVal req.slice_shape (buildPrompt req.points req.boxes)
          < 4294967296 := by simpa using hok.2
      simp [segment_slice, hne, hp, decode_slice, hbuf, predictor_segment_slice,
        pred_generate_demo_mask, hok.1, hok2, Except.isOk, Except.toBool]

/-- Claim C6 witness: one foreground point at `(1, 2)` on an empty
slice; the demo seed is `120`, in range, and the request succeeds. -/
theorem segment_validation_witness :
    ¬(reqVal.points = [] ∧ reqVal.boxes = [])
    ∧ (segment_slice none none 0 reqVal).isOk = true := by
  have hc : demoCenter (0, 1) [{ x := 1, y := 2, label := 1 }] [] = (1, 2) := by
    decide
  have hs : demoSeedVal (0, 1) [{ x := 1, y := 2, label := 1 }] [] = 120 := by
    have h1 : demoSeedVal (0, 1) [{ x := 1, y := 2, label := 1 }] []
        = int_trunc ((1 : ℚ) * 100 + 2 * 10) := by
      simp [demoSeedVal, hc]
    rw [h1, show ((1 : ℚ) * 100 + 2 * 10) = 120 from by norm_num]
    decide
  have h := (segment_validation none none 0 reqVal).2 (by decide)
  refine ⟨by decide, h.1 rfl ?_ ?_⟩
  · show (0 : Int) ≤ demoSeedVal (0, 1) [{ x := 1, y := 2, label := 1 }] []
    rw [hs]; norm_num
  · show demoSeedVal (0, 1) [{ x := 1, y := 2, label := 1 }] [] < 2 ^ 32
    rw [hs]; norm_num

/-- Claim C2 counterexample: in demo mode a request whose buffer is not
decodable does not fail with 400 — `slice_data` is never decoded and
the request succeeds. -/
theorem decode_400_counterexample :
    bufferDecodes reqBadBuf.slice_data reqBadBuf.slice_shape = false
    ∧ (segment_slice none none 0 reqBadBuf).isOk = true := by
  constructor
  · decide
  · have hc : demoCenter (0, 1) [{ x := 1, y := 2, label := 1 }] [] = (1, 2) := by
      decide
    have hs : demoSeedVal (0, 1) [{ x := 1, y := 2, label := 1 }] [] = 120 := by
      have h1 : demoSeedVal (0, 1) [{ x := 1, y := 2, label := 1 }] []
          = int_trunc ((1 : ℚ) * 100 + 2 * 10) := by
        simp [demoSeedVal, hc]
      rw [h1, show ((1 : ℚ) * 100 + 2 * 10) = 120 from by norm_num]
      decide
    simp [segment_slice, reqBadBuf, predLoaded, generate_demo_mask, hs,
      Except.isOk, Except.toBool]

/-- Claim C2 as amended: for a prompted request whose slice buffer is
malformed, the decode error surfaces only in loaded mode, and there as
HTTP 500 (the `HTTPException(400)` of `decode_slice` is caught by the
blanket `except Exception` and re-raised as 500); in demo mode
`slice_data` is never decoded and the result does not depend on the
buffer at all. -/
theorem decode_error_path (p : Option PredictorObj) (cv2 : Option ContourFn)
    (rng : Nat) (req : SegmentationRequest)
    (hprompt : ¬(req.points = [] ∧ req.boxes = []))
    (hbad : bufferDecodes req.slice_data req.slice_shape = false) :
    (predLoaded p = true →
      segment_slice p cv2 rng req
        = Except.error (ServiceError.http 500
            ("Segmentation failed: " ++ "Failed to decode slice")))
    ∧ (predLoaded p = false → ∀ buf,
        segment_slice p cv2 rng req
          = segment_slice p cv2 rng { req with slice_data := buf }) := by
  constructor
  · intro hp
    simp [segment_slice, hprompt, hp, decode_slice, hbad, errText]
  · intro hp buf
    simp [segment_slice, hprompt, hp]

/-- Claim C2 witness: a concrete malformed buffer gives HTTP 500 in
loaded mode and is ignored in demo mode. -/
theorem decode_error_path_witness :
    ¬(reqBadBuf.points = [] ∧ reqBadBuf.boxes = [])
    ∧ bufferDecodes reqBadBuf.slice_data reqBadBuf.slice_shape = false
    ∧ segment_slice (some { model_loaded := true }) none 0 reqBadBuf
        = Except.error (ServiceError.http 500
            ("Segmentation failed: " ++ "Failed to decode slice"))
    ∧ segment_slice none none 0 reqBadBuf
        = segment_slice none none 0
            { reqBadBuf with slice_data := { b64_valid := true, byteLen := 0 } } := by
  refine ⟨by decide, by decide, ?_, ?_⟩
  · exact (decode_error_path (some { model_loaded := true }) none 0 reqBadBuf
      (by decide) (by decide)).1 rfl
  · exact (decode_error_path none none 0 reqBadBuf (by decide) (by decide)).2 rfl
      { b64_valid := true, byteLen := 0 }

/-- Claim C3 counterexample: with `cv2` unavailable the `contours`
field of a successful response is present and empty (`some []`), not
absent. -/
theorem contours_absent_counterexample :
    (segment_slice none none 0 reqContours).map (fun r => r.contours)
      = Except.ok (some [])
    ∧ some ([] : List (List (ℚ × ℚ))) ≠ none := by
  constructor
  · have hc : demoCenter (0, 1) [{ x := 1, y := 2, label := 1 }] [] = (1, 2) := by
      decide
    have hs : demoSeedVal (0, 1) [{ x := 1, y := 2, label := 1 }] [] = 120 := by
      have h1 : demoSeedVal (0, 1) [{ x := 1, y := 2, label := 1 }] []
          = int_trunc ((1 : ℚ) * 100 + 2 * 10) := by
        simp [demoSeedVal, hc]
      rw [h1, show ((1 : ℚ) * 100 + 2 * 10) = 120 from by norm_num]
      decide
    simp [segment_slice, reqContours, predLoaded, generate_demo_mask, hs,
      mkResponse, find_contours, Except.map, mkGrid, mask_to_rle, rleEncodeFlat]
  · simp

/-- Claim C3 as amended: in every successful segment response the
`contours` field is present (`some _`) — also when `cv2` is
unavailable, where it is `some []` — so capability absence is not
distinguishable from an empty-mask result. -/
theorem contours_presence (p : Option PredictorObj) (cv2 : Option ContourFn)
    (rng : Nat) (req : SegmentationRequest) (resp : SegmentationResponse)
    (h : segment_slice p cv2 rng req = Except.ok resp) :
    (∃ cs, resp.contours = some cs)
    ∧ (cv2 = none → resp.contours = some []) := by
  simp only [segment_slice] at h
  split at h
  · simp at h
  · split at h
    · split at h
      · simp at h
      · split at h
        · simp at h
        · rw [Except.ok.injEq] at h
          subst h
          refine ⟨⟨_, rfl⟩, ?_⟩
          intro hcv
          subst hcv
          simp [mkResponse, find_contours]
    · split at h
      · simp at h
      · rw [Except.ok.injEq] at h
        subst h
        refine ⟨⟨_, rfl⟩, ?_⟩
        intro hcv
        subst hcv
        simp [mkResponse, find_contours]

/-- Claim C3 witness: the concrete response to `reqContours` has a
present, empty `contours` field. -/
theorem contours_presence_witness :
    (∃ cs, respContours.contours = some cs)
    ∧ respContours.contours = some [] := by
  have hc : demoCenter (0, 1) [{ x := 1, y := 2, label := 1 }] [] = (1, 2) := by
    decide
  have hs : demoSeedVal (0, 1) [{ x := 1, y := 2, label := 1 }] [] = 120 := by
    have h1 : demoSeedVal (0, 1) [{ x := 1, y := 2, label := 1 }] []
        = int_trunc ((1 : ℚ) * 100 + 2 * 10) := by
      simp [demoSeedVal, hc]
    rw [h1, show ((1 : ℚ) * 100 + 2 * 10) = 120 from by norm_num]
    decide
  have hseg : segment_slice none none 0 reqContours = Except.ok respContours := by
    simp [segment_slice, reqContours, predLoaded, generate_demo_mask, hs,
      mkResponse, respContours, mkGrid, find_contours, mask_to_rle, rleEncodeFlat]
  have h := contours_presence none none 0 reqContours respContours hseg
  exact ⟨h.1, h.2 rfl⟩

end VTB
